import Mathlib

/-!
The OSR binding of `osr.go`, embedded in Lean

`osr.go` is a cgo binding: every exported Go function prepares C arguments,
makes one call into the external OGR spatial-reference engine, and turns the
engine's status and output parameters into Go results.

The embedding keeps three things explicit.

* The engine is external, so it is a parameter: `Engine` gives, for each C
  entry point the binding calls, the status and output values of that call.
* Every C call the binding makes is recorded, in order, in a trace, together
  with the `C.free` calls (also the deferred ones).
* A Go function either returns its results or panics; `Outcome` keeps the two
  apart, and an index expression on a slice panics when the index is not below
  the length, as in Go.

A C string pointer is shown by the text behind it. The one place where the
binding reads through a pointer after `C.free` has released it takes the
allocator as a parameter, `Allocator`, which says what such a read finds.
-/

namespace Gdal

/-! ## Values crossing the cgo boundary -/

/-- Opaque engine handle (`C.OGRSpatialReferenceH`), given by its address. -/
abbrev Handle := Nat

/-- Status code of an engine call (`C.OGRErr`, a C `int`); 0 is success. -/
abbrev OGRErr := Int

/-- Values of Go `float64` / C `double`. The binding never computes with them,
it only passes them through, so they are modelled by exact rationals. -/
abbrev Float64 := ℚ

/-- A NUL-terminated C string, given by the text before its terminator. -/
structure CStr where
  text : String
  deriving DecidableEq, Repr

/-- Go value of type `error`: `none` is the `nil` interface, `some e` is an
interface value holding the status `e`. -/
abbrev GoError := Option OGRErr

/-- The conversion `error(err)` of a `C.OGRErr` to the interface type `error`.
A conversion of a concrete value to an interface type yields an interface that
holds the value: it is not `nil`, whatever the value is. -/
def error (err : OGRErr) : GoError := some err

/-- The call `C.CString(s)`: a fresh C copy of the Go string; C code sees the text up to
the first NUL byte. -/
def CString (s : String) : CStr :=
  ⟨String.mk (s.data.takeWhile (fun c => c ≠ Char.ofNat 0))⟩

/-- The call `C.GoString(p)`: the Go copy of a C string; the empty string for `NULL`. -/
def GoString : Option CStr → String
  | none => ""
  | some c => c.text

/-- The conversion `C.int(n)` for a Go `int`: reduction to the signed 32-bit range. -/
def cInt (n : Int) : Int := (n + 2 ^ 31) % 2 ^ 32 - 2 ^ 31

/-- The conversion `C.long(n)` for a Go `int`: reduction to the signed 64-bit range. -/
def cLong (n : Int) : Int := (n + 2 ^ 63) % 2 ^ 64 - 2 ^ 63

/-- A Go `[]float64`: the storage reachable from its data pointer (to the end
of the backing array) and the header fields `Len` and `Cap`. The `nil` slice
has no storage and length 0. -/
structure Float64Slice where
  array : List Float64
  len : Nat
  cap : Nat
  deriving DecidableEq, Repr

/-- The `nil` slice, the zero value of a `[]float64` variable. -/
def Float64Slice.nilSlice : Float64Slice := ⟨[], 0, 0⟩

/-- The slice literal `[]float64{x₀, …}`. -/
def Float64Slice.ofList (xs : List Float64) : Float64Slice :=
  ⟨xs, xs.length, xs.length⟩

/-- A C `char **`: `none` is the `NULL` pointer, otherwise the cells reachable
from the pointer, each holding a string pointer or `NULL`. Adding the size of
one pointer to the address moves to the tail of the cells. -/
abbrev CStrArray := Option (List (Option CStr))

/-- The receiver type `SpatialReference` (osr.go:22). -/
structure SpatialReference where
  cval : Handle
  deriving DecidableEq, Repr

/-- The type `CoordinateTransform` (osr.go:1613); the handle 0 is `NULL`. -/
structure CoordinateTransform where
  cval : Handle
  deriving DecidableEq, Repr

/-! ## C calls, traces and outcomes -/

/-- One call across the cgo boundary, with the arguments the binding passes.
A pointer argument is shown by what is stored behind it. -/
inductive Call
  | OSRImportFromWkt (h : Handle) (wkt : CStr)
  | OSRExportToWkt (h : Handle)
  | OSRExportToPrettyWkt (h : Handle) (simplify : Int)
  | OSRImportFromPCI (h : Handle) (proj units : CStr) (params : List Float64)
  | OSRImportFromUSGS (h : Handle) (projsys zone : Int) (params : List Float64) (datum : Int)
  | OSRExportToPCI (h : Handle) (params : List Float64)
  | OSRExportToUSGS (h : Handle) (params : List Float64)
  | OSRExportToMICoordSys (h : Handle)
  | OSRGetAttrValue (h : Handle) (key : CStr) (child : Int)
  | OSRGetLinearUnits (h : Handle)
  | OSRGetProjParm (h : Handle) (name : CStr) (defaultValue : Float64)
  | OSRDestroySpatialReference (h : Handle)
  | OSRDereference (h : Handle)
  | OSRRelease (h : Handle)
  | OSRImportFromProj4 (h : Handle) (input : CStr)
  | OSRImportFromXML (h : Handle) (xml : CStr)
  | OSRImportFromUrl (h : Handle) (url : CStr)
  | OSRExportToXML (h : Handle)
  | OCTNewCoordinateTransformation (source dest : Handle)
  | OCTDestroyCoordinateTransformation (ct : Handle)
  | OPTGetProjectionMethods
  | OPTGetParameterList (method : CStr)
  | OPTGetParameterInfo (method name : CStr)
  | free (p : Option CStr)
  deriving DecidableEq, Repr

/-- Run-time panics of the Go code modelled here. -/
inductive GoPanic
  | indexOutOfRange (index length : Nat)
  /-- Dereference of a `nil` pointer (invalid memory address). -/
  | nilDereference
  /-- Read past the end of the storage behind a C pointer. What the process
  does then is not defined; the model ends the run here. -/
  | readPastStorage
  deriving DecidableEq, Repr

/-- How a Go function ends: it returns its results, or it panics. -/
inductive Outcome (α : Type)
  | ret (a : α)
  | panic (p : GoPanic)
  deriving DecidableEq, Repr

/-- A run of Go code: the C calls made, in order, and how the run ended. -/
structure Go (α : Type) where
  trace : List Call
  outcome : Outcome α

/-- Sequencing of Go statements: a panic ends the run. -/
def Go.bind {α β : Type} (m : Go α) (f : α → Go β) : Go β :=
  match m.outcome with
  | .ret a => ⟨m.trace ++ (f a).trace, (f a).outcome⟩
  | .panic p => ⟨m.trace, .panic p⟩

instance : Monad Go where
  pure a := ⟨[], .ret a⟩
  bind := Go.bind

/-- A C call: it is recorded and yields the engine's answer. -/
def ccall {α : Type} (c : Call) (answer : α) : Go α := ⟨[c], .ret answer⟩

/-- A run-time panic. -/
def goPanic {α : Type} (p : GoPanic) : Go α := ⟨[], .panic p⟩

/-- The statement `defer d` followed by `body`: the deferred call runs when the
function ends, whether it returns or panics, and does not change the results. -/
def deferring {α : Type} (d : Go Unit) (body : Go α) : Go α :=
  ⟨body.trace ++ d.trace, body.outcome⟩

/-- The expression `&s[i]`: a pointer to element `i`, shown by the storage from
that element on; a run-time panic unless `i < len(s)`. -/
def Float64Slice.addrOfIndex (s : Float64Slice) (i : Nat) : Go (List Float64) :=
  if i < s.len then pure (s.array.drop i) else goPanic (.indexOutOfRange i s.len)

/-! ## The engine -/

/-- Answers of the external engine, one field per C entry point: the returned
value together with the values left in the output parameters (which all start
out zero or `NULL` in the binding). -/
structure Engine where
  /-- Answer to `OSRImportFromWkt(h, &wkt)`: status. -/
  OSRImportFromWkt : Handle → CStr → OGRErr
  /-- Answer to `OSRExportToWkt(h, &p)`: status and `p`. -/
  OSRExportToWkt : Handle → OGRErr × Option CStr
  /-- Answer to `OSRExportToPrettyWkt(h, &p, simplify)`: status and `p`. -/
  OSRExportToPrettyWkt : Handle → Int → OGRErr × Option CStr
  /-- Answer to `OSRImportFromPCI(h, proj, units, params)`: status. -/
  OSRImportFromPCI : Handle → CStr → CStr → List Float64 → OGRErr
  /-- Answer to `OSRImportFromUSGS(h, projsys, zone, params, datum)`: status. -/
  OSRImportFromUSGS : Handle → Int → Int → List Float64 → Int → OGRErr
  /-- Answer to `OSRExportToPCI(h, &p, &u, params)`: status, `p`, `u` and the storage
  behind `params` after the call. -/
  OSRExportToPCI : Handle → List Float64 → OGRErr × Option CStr × Option CStr × List Float64
  /-- Answer to `OSRExportToUSGS(h, &proj, &zone, params, &datum)`: status, `proj`,
  `zone`, `datum` and the storage behind `params` after the call. -/
  OSRExportToUSGS : Handle → List Float64 → OGRErr × Int × Int × Int × List Float64
  /-- Answer to `OSRExportToMICoordSys(h, &x)`: status and `x`. -/
  OSRExportToMICoordSys : Handle → OGRErr × Option CStr
  /-- Answer to `OSRGetAttrValue(h, key, child)`: the attribute text, or `NULL`. -/
  OSRGetAttrValue : Handle → CStr → Int → Option CStr
  /-- Answer to `OSRGetLinearUnits(h, &x)`: the factor to metres and the unit name `x`. -/
  OSRGetLinearUnits : Handle → Float64 × Option CStr
  /-- Answer to `OSRGetProjParm(h, name, default, &err)`: the raw value and `err`. -/
  OSRGetProjParm : Handle → CStr → Float64 → Float64 × OGRErr
  /-- Answer to `OSRDereference(h)`: the new reference count. -/
  OSRDereference : Handle → Int
  /-- Answer to `OSRImportFromProj4(h, input)`: status. -/
  OSRImportFromProj4 : Handle → CStr → OGRErr
  /-- Answer to `OSRImportFromXML(h, xml)`, the parser of XML text: status. -/
  OSRImportFromXML : Handle → CStr → OGRErr
  /-- Answer to `OSRImportFromUrl(h, url)`, the importer that fetches the
  definition from a URL: status. The binding has no call to it. -/
  OSRImportFromUrl : Handle → CStr → OGRErr
  /-- Answer to `OSRExportToXML(h, &x, NULL)`: status and `x`. -/
  OSRExportToXML : Handle → OGRErr × Option CStr
  /-- Answer to `OCTNewCoordinateTransformation(source, dest)`: the handle of
  the transformation, 0 (`NULL`) when none can be built. -/
  OCTNewCoordinateTransformation : Handle → Handle → Handle
  /-- Answer to `OPTGetProjectionMethods()`: the array of method names. -/
  OPTGetProjectionMethods : CStrArray
  /-- Answer to `OPTGetParameterList(method, &name)`: the array of parameter
  names and the user name `name`. -/
  OPTGetParameterList : CStr → CStrArray × Option CStr
  /-- Answer to `OPTGetParameterInfo(method, name, &user, &type, &default)`:
  the success flag and the three outputs. -/
  OPTGetParameterInfo : CStr → CStr → Int × Option CStr × Option CStr × Float64

/-- The C allocator, as far as the binding can observe it: `afterFree c` is the
text a read finds behind a pointer whose storage held `c` and has been released
with `C.free`. -/
structure Allocator where
  afterFree : CStr → CStr

namespace C

/-- The call `C.free(unsafe.Pointer(p))`. -/
def free (p : Option CStr) : Go Unit := ccall (.free p) ()

def OSRImportFromWkt (E : Engine) (h : Handle) (wkt : CStr) : Go OGRErr :=
  ccall (.OSRImportFromWkt h wkt) (E.OSRImportFromWkt h wkt)

def OSRExportToWkt (E : Engine) (h : Handle) : Go (OGRErr × Option CStr) :=
  ccall (.OSRExportToWkt h) (E.OSRExportToWkt h)

def OSRExportToPrettyWkt (E : Engine) (h : Handle) (simplify : Int) :
    Go (OGRErr × Option CStr) :=
  ccall (.OSRExportToPrettyWkt h simplify) (E.OSRExportToPrettyWkt h simplify)

def OSRImportFromPCI (E : Engine) (h : Handle) (proj units : CStr)
    (params : List Float64) : Go OGRErr :=
  ccall (.OSRImportFromPCI h proj units params) (E.OSRImportFromPCI h proj units params)

def OSRImportFromUSGS (E : Engine) (h : Handle) (projsys zone : Int)
    (params : List Float64) (datum : Int) : Go OGRErr :=
  ccall (.OSRImportFromUSGS h projsys zone params datum)
    (E.OSRImportFromUSGS h projsys zone params datum)

def OSRExportToPCI (E : Engine) (h : Handle) (params : List Float64) :
    Go (OGRErr × Option CStr × Option CStr × List Float64) :=
  ccall (.OSRExportToPCI h params) (E.OSRExportToPCI h params)

def OSRExportToUSGS (E : Engine) (h : Handle) (params : List Float64) :
    Go (OGRErr × Int × Int × Int × List Float64) :=
  ccall (.OSRExportToUSGS h params) (E.OSRExportToUSGS h params)

def OSRExportToMICoordSys (E : Engine) (h : Handle) : Go (OGRErr × Option CStr) :=
  ccall (.OSRExportToMICoordSys h) (E.OSRExportToMICoordSys h)

def OSRGetAttrValue (E : Engine) (h : Handle) (key : CStr) (child : Int) :
    Go (Option CStr) :=
  ccall (.OSRGetAttrValue h key child) (E.OSRGetAttrValue h key child)

def OSRGetLinearUnits (E : Engine) (h : Handle) : Go (Float64 × Option CStr) :=
  ccall (.OSRGetLinearUnits h) (E.OSRGetLinearUnits h)

def OSRGetProjParm (E : Engine) (h : Handle) (name : CStr) (defaultValue : Float64) :
    Go (Float64 × OGRErr) :=
  ccall (.OSRGetProjParm h name defaultValue) (E.OSRGetProjParm h name defaultValue)

/-- The call `C.OSRDestroySpatialReference(h)`. -/
def OSRDestroySpatialReference (h : Handle) : Go Unit :=
  ccall (.OSRDestroySpatialReference h) ()

def OSRDereference (E : Engine) (h : Handle) : Go Int :=
  ccall (.OSRDereference h) (E.OSRDereference h)

/-- The call `C.OSRRelease(h)`. -/
def OSRRelease (h : Handle) : Go Unit := ccall (.OSRRelease h) ()

def OSRImportFromProj4 (E : Engine) (h : Handle) (input : CStr) : Go OGRErr :=
  ccall (.OSRImportFromProj4 h input) (E.OSRImportFromProj4 h input)

def OSRImportFromXML (E : Engine) (h : Handle) (xml : CStr) : Go OGRErr :=
  ccall (.OSRImportFromXML h xml) (E.OSRImportFromXML h xml)

def OSRExportToXML (E : Engine) (h : Handle) : Go (OGRErr × Option CStr) :=
  ccall (.OSRExportToXML h) (E.OSRExportToXML h)

def OCTNewCoordinateTransformation (E : Engine) (source dest : Handle) : Go Handle :=
  ccall (.OCTNewCoordinateTransformation source dest)
    (E.OCTNewCoordinateTransformation source dest)

/-- The call `C.OCTDestroyCoordinateTransformation(ct)`. -/
def OCTDestroyCoordinateTransformation (ct : Handle) : Go Unit :=
  ccall (.OCTDestroyCoordinateTransformation ct) ()

def OPTGetProjectionMethods (E : Engine) : Go CStrArray :=
  ccall .OPTGetProjectionMethods E.OPTGetProjectionMethods

def OPTGetParameterList (E : Engine) (method : CStr) : Go (CStrArray × Option CStr) :=
  ccall (.OPTGetParameterList method) (E.OPTGetParameterList method)

def OPTGetParameterInfo (E : Engine) (method name : CStr) :
    Go (Int × Option CStr × Option CStr × Float64) :=
  ccall (.OPTGetParameterInfo method name) (E.OPTGetParameterInfo method name)

end C

/-! ## The binding -/

/-- Model of `SpatialReference.FromWKT` (osr.go:35). -/
def FromWKT (E : Engine) (sr : SpatialReference) (wkt : String) : Go GoError :=
  let cString := CString wkt
  deferring (C.free (some cString)) do
    let err ← C.OSRImportFromWkt E sr.cval cString
    if err ≠ 0 then
      return error err
    return none

/-- Model of `SpatialReference.ToWKT` (osr.go:47). -/
def ToWKT (E : Engine) (sr : SpatialReference) : Go (String × GoError) := do
  let (err, p) ← C.OSRExportToWkt E sr.cval
  if err ≠ 0 then
    return ("", error err)
  let wkt := GoString p
  return (wkt, none)

/-- Model of `SpatialReference.ToPrettyWKT` (osr.go:59). `BoolToCInt` is declared outside
`osr.go` and is taken as a parameter. -/
def ToPrettyWKT (E : Engine) (BoolToCInt : Bool → Int) (sr : SpatialReference)
    (simplify : Bool) : Go (String × GoError) := do
  let (err, p) ← C.OSRExportToPrettyWkt E sr.cval (BoolToCInt simplify)
  let wkt := GoString p
  return (wkt, error err)

/-- Model of `SpatialReference.FromPCI` (osr.go:197). -/
def FromPCI (E : Engine) (sr : SpatialReference) (proj units : String)
    (params : Float64Slice) : Go GoError :=
  let cProj := CString proj
  deferring (C.free (some cProj)) <|
  let cUnits := CString units
  deferring (C.free (some cUnits)) do
    let p0 ← params.addrOfIndex 0
    let err ← C.OSRImportFromPCI E sr.cval cProj cUnits p0
    if err ≠ 0 then
      return error err
    return none

/-- Model of `SpatialReference.FromUSGS` (osr.go:216). -/
def FromUSGS (E : Engine) (sr : SpatialReference) (projsys zone : Int)
    (params : Float64Slice) (datum : Int) : Go GoError := do
  let p0 ← params.addrOfIndex 0
  let err ← C.OSRImportFromUSGS E sr.cval (cLong projsys) (cLong zone) p0 (cLong datum)
  if err ≠ 0 then
    return error err
  return none

/-- Model of `SpatialReference.ToPCI` (osr.go:272). The named result `params` starts as
the `nil` slice; after the call its header is overwritten with length and
capacity 17. -/
def ToPCI (E : Engine) (sr : SpatialReference) :
    Go (String × String × Float64Slice × GoError) := do
  let params := Float64Slice.nilSlice
  let p0 ← params.addrOfIndex 0
  let (err, p, u, storage) ← C.OSRExportToPCI E sr.cval p0
  if err ≠ 0 then
    return ("", "", Float64Slice.nilSlice, error err)
  let proj := GoString p
  C.free p
  let units := GoString u
  C.free u
  let params : Float64Slice := ⟨storage, 17, 17⟩
  return (proj, units, params, none)

/-- Model of `SpatialReference.ToUSGS` (osr.go:293). The named result `params` starts as
the `nil` slice; after the call its header is overwritten with length and
capacity 15. -/
def ToUSGS (E : Engine) (sr : SpatialReference) :
    Go (Int × Int × Float64Slice × Int × GoError) := do
  let params := Float64Slice.nilSlice
  let p0 ← params.addrOfIndex 0
  let (err, proj, zone, datum, storage) ← C.OSRExportToUSGS E sr.cval p0
  if err ≠ 0 then
    return (proj, zone, Float64Slice.nilSlice, datum, error err)
  let params : Float64Slice := ⟨storage, 15, 15⟩
  return (proj, zone, params, datum, none)

/-- Model of `SpatialReference.ToMICoordSys` (osr.go:326). -/
def ToMICoordSys (E : Engine) (sr : SpatialReference) : Go (String × GoError) := do
  let (err, x) ← C.OSRExportToMICoordSys E sr.cval
  if err ≠ 0 then
    return ("", error err)
  let output := GoString x
  C.free x
  return (output, error err)

/-- Model of `SpatialReference.AttrValue` (osr.go:362). -/
def AttrValue (E : Engine) (sr : SpatialReference) (key : String) (child : Int) :
    Go (String × Bool) :=
  let cKey := CString key
  deferring (C.free (some cKey)) do
    let val ← C.OSRGetAttrValue E sr.cval cKey (cInt child)
    return (GoString val, val != none)

/-- Model of `SpatialReference.LinearUnits` (osr.go:442). -/
def LinearUnits (E : Engine) (sr : SpatialReference) : Go (String × Float64) := do
  let (factor, x) ← C.OSRGetLinearUnits E sr.cval
  deferring (C.free x) do
    return (GoString x, factor)

/-- Model of `SpatialReference.ProjectionParameter` (osr.go:773). -/
def ProjectionParameter (E : Engine) (sr : SpatialReference) (name : String)
    (defaultValue : Float64) : Go (Float64 × GoError) :=
  let cName := CString name
  deferring (C.free (some cName)) do
    let (value, err) ← C.OSRGetProjParm E sr.cval cName defaultValue
    if err ≠ 0 then
      return (value, error err)
    return (value, none)

/-- Model of `SpatialReference.NormalizedProjectionParameter` (osr.go:798). -/
def NormalizedProjectionParameter (E : Engine) (sr : SpatialReference) (name : String)
    (defaultValue : Float64) : Go (Float64 × GoError) :=
  let cName := CString name
  deferring (C.free (some cName)) do
    let (value, err) ← C.OSRGetProjParm E sr.cval cName defaultValue
    if err ≠ 0 then
      return (value, error err)
    return (value, none)

/-- Model of `SpatialReference.Destroy` (osr.go:87). -/
def SpatialReference.Destroy (sr : SpatialReference) : Go Unit :=
  C.OSRDestroySpatialReference sr.cval

/-- Model of `SpatialReference.Dereference` (osr.go:110). -/
def SpatialReference.Dereference (E : Engine) (sr : SpatialReference) : Go Int := do
  let count ← C.OSRDereference E sr.cval
  return count

/-- Model of `SpatialReference.Release` (osr.go:116). -/
def SpatialReference.Release (sr : SpatialReference) : Go Unit :=
  C.OSRRelease sr.cval

/-- Model of `SpatialReference.FromProj4` (osr.go:161). -/
def FromProj4 (E : Engine) (sr : SpatialReference) (input : String) : Go GoError :=
  let cString := CString input
  deferring (C.free (some cString)) do
    let err ← C.OSRImportFromProj4 E sr.cval cString
    if err ≠ 0 then
      return error err
    return none

/-- Model of `SpatialReference.FromESRI` (osr.go:185). -/
def FromESRI (E : Engine) (sr : SpatialReference) (input : String) : Go GoError :=
  let cString := CString input
  deferring (C.free (some cString)) do
    let err ← C.OSRImportFromProj4 E sr.cval cString
    if err ≠ 0 then
      return error err
    return none

/-- Model of `SpatialReference.FromXML` (osr.go:231). -/
def FromXML (E : Engine) (sr : SpatialReference) (xml : String) : Go GoError :=
  let cXml := CString xml
  deferring (C.free (some cXml)) do
    let err ← C.OSRImportFromXML E sr.cval cXml
    if err ≠ 0 then
      return error err
    return none

/-- Model of `SpatialReference.FromURL` (osr.go:260). -/
def FromURL (E : Engine) (sr : SpatialReference) (url : String) : Go GoError :=
  let cURL := CString url
  deferring (C.free (some cURL)) do
    let err ← C.OSRImportFromXML E sr.cval cURL
    if err ≠ 0 then
      return error err
    return none

/-- Model of `SpatialReference.ToXML` (osr.go:312). The returned string is the
second `C.GoString(x)`, evaluated after `C.free(x)`: it reads what the allocator
left behind the released pointer. -/
def ToXML (E : Engine) (A : Allocator) (sr : SpatialReference) :
    Go (String × GoError) := do
  let (err, x) ← C.OSRExportToXML E sr.cval
  if err ≠ 0 then
    return ("", error err)
  let _xml := GoString x
  C.free x
  return (GoString (x.map A.afterFree), none)

/-- Model of `CreateCoordinateTransform` (osr.go:1618). -/
def CreateCoordinateTransform (E : Engine) (source dest : SpatialReference) :
    Go CoordinateTransform := do
  let ct ← C.OCTNewCoordinateTransformation E source.cval dest.cval
  return ⟨ct⟩

/-- Model of `CoordinateTransform.Destroy` (osr.go:1627). -/
def CoordinateTransform.Destroy (ct : CoordinateTransform) : Go Unit :=
  C.OCTDestroyCoordinateTransformation ct.cval

/-- The loop shared by `ProjectionMethods` (osr.go:1636) and `ParameterList`
(osr.go:1661), started at a non-`NULL` address `q`, given by the cells from `q`
on: read the cell `*p`; stop on `NULL`; otherwise append `C.GoString(*p)` to
`strings` and move `q` one pointer further. -/
def nameLoop : List (Option CStr) → List String → Go (List String)
  | [], _ => goPanic .readPastStorage
  | none :: _, strings => pure strings
  | some c :: rest, strings => nameLoop rest (strings ++ [GoString (some c)])

/-- The loop of `nameLoop` started at the pointer the engine returned: the
first read `*p` of a `NULL` pointer is a `nil` dereference. -/
def nameLoopFrom (p : CStrArray) (strings : List String) : Go (List String) :=
  match p with
  | none => goPanic .nilDereference
  | some cells => nameLoop cells strings

/-- Model of `ProjectionMethods` (osr.go:1632). -/
def ProjectionMethods (E : Engine) : Go (List String) := do
  let p ← C.OPTGetProjectionMethods E
  let strings ← nameLoopFrom p []
  return strings

/-- Model of `ParameterList` (osr.go:1649). -/
def ParameterList (E : Engine) (method : String) : Go (List String × String) :=
  let cMethod := CString method
  deferring (C.free (some cMethod)) do
    let (p, cName) ← C.OPTGetParameterList E cMethod
    let name := GoString cName
    let strings ← nameLoopFrom p []
    return (strings, name)

/-- Model of `ParameterInfo` (osr.go:1674). -/
def ParameterInfo (E : Engine) (projectionMethod parameterName : String) :
    Go (String × String × Float64 × Bool) :=
  let cMethod := CString projectionMethod
  deferring (C.free (some cMethod)) <|
  let cName := CString parameterName
  deferring (C.free (some cName)) do
    let (success, cUserName, cParamType, cDefaultValue) ←
      C.OPTGetParameterInfo E cMethod cName
    return (GoString cUserName, GoString cParamType, cDefaultValue, success != 0)

/-! ## Sample engines -/

/-- An engine that reports success everywhere and leaves every output
parameter as it found it; its catalog of projection methods is empty. -/
def Engine.quiet : Engine where
  OSRImportFromWkt := fun _ _ => 0
  OSRExportToWkt := fun _ => (0, none)
  OSRExportToPrettyWkt := fun _ _ => (0, none)
  OSRImportFromPCI := fun _ _ _ _ => 0
  OSRImportFromUSGS := fun _ _ _ _ _ => 0
  OSRExportToPCI := fun _ params => (0, none, none, params)
  OSRExportToUSGS := fun _ params => (0, 0, 0, 0, params)
  OSRExportToMICoordSys := fun _ => (0, none)
  OSRGetAttrValue := fun _ _ _ => none
  OSRGetLinearUnits := fun _ => (1, none)
  OSRGetProjParm := fun _ _ d => (d, 0)
  OSRDereference := fun _ => 0
  OSRImportFromProj4 := fun _ _ => 0
  OSRImportFromXML := fun _ _ => 0
  OSRImportFromUrl := fun _ _ => 0
  OSRExportToXML := fun _ => (0, none)
  OCTNewCoordinateTransformation := fun source dest => source + dest + 1
  OPTGetProjectionMethods := some [none]
  OPTGetParameterList := fun _ => (none, none)
  OPTGetParameterInfo := fun _ _ => (0, none, none, 0)

/-- An engine holding a projected system whose linear unit is the kilometre
(factor 1000 to metres) and whose `false_easting` is 500 of these units. -/
def Engine.kilometre : Engine :=
  { Engine.quiet with
    OSRGetLinearUnits := fun _ => (1000, some ⟨"kilometre"⟩)
    OSRGetProjParm := fun _ name d =>
      if name = ⟨"false_easting"⟩ then (500, 0) else (d, 6) }

/-- An engine holding the geographic system WGS 84. -/
def Engine.wgs84 : Engine :=
  { Engine.quiet with
    OSRExportToWkt := fun _ => (0, some ⟨"GEOGCS[\"WGS 84\"]"⟩)
    OSRExportToPrettyWkt := fun _ _ => (0, some ⟨"GEOGCS[\"WGS 84\"]"⟩)
    OSRExportToMICoordSys := fun _ => (0, some ⟨"Earth Projection 1, 104"⟩)
    OSRExportToXML := fun _ => (0, some ⟨"<gml:GeographicCRS gml:id=\"ogrcrs1\"/>"⟩)
    OSRGetAttrValue := fun _ key child =>
      if key = ⟨"GEOGCS"⟩ ∧ child = 0 then some ⟨"WGS 84"⟩ else none }

/-- An engine that rejects every import and export with status 5
(corrupt data), writes no output and builds no transformation. -/
def Engine.failing : Engine :=
  { Engine.quiet with
    OSRImportFromWkt := fun _ _ => 5
    OSRExportToWkt := fun _ => (5, none)
    OSRExportToPrettyWkt := fun _ _ => (5, none)
    OSRImportFromPCI := fun _ _ _ _ => 5
    OSRImportFromUSGS := fun _ _ _ _ _ => 5
    OSRExportToMICoordSys := fun _ => (5, none)
    OSRImportFromProj4 := fun _ _ => 5
    OSRImportFromXML := fun _ _ => 5
    OSRImportFromUrl := fun _ _ => 5
    OSRExportToXML := fun _ => (5, none)
    OCTNewCoordinateTransformation := fun _ _ => 0 }

/-- An engine with network access: its URL importer fetches and imports every
URL with status 0, while its parser of XML text accepts only text that starts
with `<` and rejects anything else with status 5 (corrupt data). -/
def Engine.online : Engine :=
  { Engine.quiet with
    OSRImportFromUrl := fun _ _ => 0
    OSRImportFromXML := fun _ xml =>
      if xml.text.data.head? = some '<' then 0 else 5 }

/-- An engine whose catalog holds two projection methods; `Transverse_Mercator`
has five parameters, and `scale_factor` is known with default 1. -/
def Engine.catalog : Engine :=
  { Engine.quiet with
    OPTGetProjectionMethods :=
      some [some ⟨"Transverse_Mercator"⟩, some ⟨"Albers_Conic_Equal_Area"⟩, none]
    OPTGetParameterList := fun method =>
      if method = ⟨"Transverse_Mercator"⟩ then
        (some [some ⟨"latitude_of_origin"⟩, some ⟨"central_meridian"⟩,
               some ⟨"scale_factor"⟩, some ⟨"false_easting"⟩,
               some ⟨"false_northing"⟩, none],
         some ⟨"Transverse Mercator"⟩)
      else (none, none)
    OPTGetParameterInfo := fun method name =>
      if method = ⟨"Transverse_Mercator"⟩ ∧ name = ⟨"scale_factor"⟩ then
        (1, some ⟨"Scale Factor"⟩, some ⟨"Ratio"⟩, 1)
      else (0, none, none, 0) }

/-- An allocator that leaves released storage as it was. -/
def Allocator.keeping : Allocator := ⟨fun c => c⟩

/-- An allocator that overwrites the start of released storage with its own
bookkeeping, a zero word: a read finds the empty string. -/
def Allocator.clearing : Allocator := ⟨fun _ => ⟨""⟩⟩

/-- The tolerance test of the unit-equivalence property: the normalized value
equals the raw value times the unit factor to within 1e-9. -/
def unitEquivalent (normalized raw factor : Float64) : Prop :=
  |normalized - raw * factor| ≤ 1 / 10 ^ 9

instance (normalized raw factor : Float64) :
    Decidable (unitEquivalent normalized raw factor) := by
  unfold unitEquivalent; infer_instance

/-! ## Runs of the binding

For each modelled function, the full run: the C calls it makes and its result,
in terms of the engine's answers. -/

theorem FromWKT_run (E : Engine) (sr : SpatialReference) (wkt : String) :
    FromWKT E sr wkt =
      ⟨[.OSRImportFromWkt sr.cval (CString wkt), .free (some (CString wkt))],
        .ret (if E.OSRImportFromWkt sr.cval (CString wkt) = 0 then none
              else error (E.OSRImportFromWkt sr.cval (CString wkt)))⟩ := by
  unfold FromWKT
  by_cases h : E.OSRImportFromWkt sr.cval (CString wkt) = 0 <;>
    simp [deferring, C.OSRImportFromWkt, C.free, ccall, bind, Go.bind, pure, h]

theorem ToWKT_run (E : Engine) (sr : SpatialReference) :
    ToWKT E sr =
      ⟨[.OSRExportToWkt sr.cval],
        .ret (if (E.OSRExportToWkt sr.cval).1 = 0
              then (GoString (E.OSRExportToWkt sr.cval).2, none)
              else ("", error (E.OSRExportToWkt sr.cval).1))⟩ := by
  unfold ToWKT
  by_cases h : (E.OSRExportToWkt sr.cval).1 = 0 <;>
    simp [C.OSRExportToWkt, ccall, bind, Go.bind, pure, h]

theorem ToPrettyWKT_run (E : Engine) (BoolToCInt : Bool → Int) (sr : SpatialReference)
    (simplify : Bool) :
    ToPrettyWKT E BoolToCInt sr simplify =
      ⟨[.OSRExportToPrettyWkt sr.cval (BoolToCInt simplify)],
        .ret (GoString (E.OSRExportToPrettyWkt sr.cval (BoolToCInt simplify)).2,
              error (E.OSRExportToPrettyWkt sr.cval (BoolToCInt simplify)).1)⟩ := by
  simp [ToPrettyWKT, C.OSRExportToPrettyWkt, ccall, bind, Go.bind, pure]

theorem ToMICoordSys_run (E : Engine) (sr : SpatialReference) :
    ToMICoordSys E sr =
      if (E.OSRExportToMICoordSys sr.cval).1 = 0
      then ⟨[.OSRExportToMICoordSys sr.cval, .free (E.OSRExportToMICoordSys sr.cval).2],
            .ret (GoString (E.OSRExportToMICoordSys sr.cval).2,
                  error (E.OSRExportToMICoordSys sr.cval).1)⟩
      else ⟨[.OSRExportToMICoordSys sr.cval],
            .ret ("", error (E.OSRExportToMICoordSys sr.cval).1)⟩ := by
  unfold ToMICoordSys
  by_cases h : (E.OSRExportToMICoordSys sr.cval).1 = 0 <;>
    simp [C.OSRExportToMICoordSys, C.free, ccall, bind, Go.bind, pure, h]

theorem AttrValue_run (E : Engine) (sr : SpatialReference) (key : String) (child : Int) :
    AttrValue E sr key child =
      ⟨[.OSRGetAttrValue sr.cval (CString key) (cInt child), .free (some (CString key))],
        .ret (GoString (E.OSRGetAttrValue sr.cval (CString key) (cInt child)),
              (E.OSRGetAttrValue sr.cval (CString key) (cInt child)) != none)⟩ := by
  simp [AttrValue, deferring, C.OSRGetAttrValue, C.free, ccall, bind, Go.bind, pure]

theorem FromUSGS_run (E : Engine) (sr : SpatialReference) (projsys zone : Int)
    (params : Float64Slice) (datum : Int) :
    FromUSGS E sr projsys zone params datum =
      if 0 < params.len then
        ⟨[.OSRImportFromUSGS sr.cval (cLong projsys) (cLong zone) params.array (cLong datum)],
          .ret (if E.OSRImportFromUSGS sr.cval (cLong projsys) (cLong zone) params.array
                    (cLong datum) = 0 then none
                else error (E.OSRImportFromUSGS sr.cval (cLong projsys) (cLong zone)
                    params.array (cLong datum)))⟩
      else ⟨[], .panic (.indexOutOfRange 0 params.len)⟩ := by
  unfold FromUSGS Float64Slice.addrOfIndex
  by_cases hl : 0 < params.len
  · by_cases h : E.OSRImportFromUSGS sr.cval (cLong projsys) (cLong zone) params.array
        (cLong datum) = 0 <;>
      simp [C.OSRImportFromUSGS, ccall, bind, Go.bind, pure, hl, h]
  · simp [goPanic, bind, Go.bind, hl]

theorem FromPCI_run (E : Engine) (sr : SpatialReference) (proj units : String)
    (params : Float64Slice) :
    FromPCI E sr proj units params =
      if 0 < params.len then
        ⟨[.OSRImportFromPCI sr.cval (CString proj) (CString units) params.array,
          .free (some (CString units)), .free (some (CString proj))],
          .ret (if E.OSRImportFromPCI sr.cval (CString proj) (CString units) params.array = 0
                then none
                else error (E.OSRImportFromPCI sr.cval (CString proj) (CString units)
                    params.array))⟩
      else ⟨[.free (some (CString units)), .free (some (CString proj))],
            .panic (.indexOutOfRange 0 params.len)⟩ := by
  unfold FromPCI Float64Slice.addrOfIndex
  by_cases hl : 0 < params.len
  · by_cases h : E.OSRImportFromPCI sr.cval (CString proj) (CString units) params.array = 0 <;>
      simp [deferring, C.OSRImportFromPCI, C.free, ccall, bind, Go.bind, pure, hl, h]
  · simp [deferring, goPanic, C.free, ccall, bind, Go.bind, hl]

/-! ## The claims -/

/-- C1 (fails on the code): the normalized getter does not apply the unit
factor. On a projected system in kilometres (factor 1000) with a
`false_easting` of 500, `NormalizedProjectionParameter` returns 500, the very
value `ProjectionParameter` returns, and 500 is not within 1e-9 of
500 * 1000. -/
theorem NormalizedProjectionParameter_skips_unit_factor :
    (NormalizedProjectionParameter Engine.kilometre ⟨1⟩ "false_easting" 0).outcome
      = .ret (500, none) ∧
    (ProjectionParameter Engine.kilometre ⟨1⟩ "false_easting" 0).outcome
      = .ret (500, none) ∧
    (LinearUnits Engine.kilometre ⟨1⟩).outcome = .ret ("kilometre", 1000) ∧
    ¬ unitEquivalent 500 500 1000 := by
  refine ⟨by rfl, by rfl, by rfl, ?_⟩
  unfold unitEquivalent
  norm_num [abs_le]

/-- C2 (fails on the code): `ToUSGS` never returns. Whatever the engine would
answer, the index expression `&params[0]` on the still-`nil` result slice
panics before the engine is called. -/
theorem ToUSGS_panics_before_engine_call (E : Engine) (sr : SpatialReference) :
    ToUSGS E sr = ⟨[], .panic (.indexOutOfRange 0 0)⟩ := by
  rfl

/-- C3 (fails on the code): `ToPCI` never returns. Whatever the engine would
answer, the index expression `&params[0]` on the still-`nil` result slice
panics before the engine is called. -/
theorem ToPCI_panics_before_engine_call (E : Engine) (sr : SpatialReference) :
    ToPCI E sr = ⟨[], .panic (.indexOutOfRange 0 0)⟩ := by
  rfl

/-- C4 as stated is false: with a slice of 3 values (not 15) and an engine
that reports status 0, `FromUSGS` hands the 3-value buffer to the engine and
returns a `nil` error. -/
theorem FromUSGS_short_params_accepted :
    (Float64Slice.ofList [1, 2, 3]).len ≠ 15 ∧
    FromUSGS Engine.quiet ⟨1⟩ 1 10 (Float64Slice.ofList [1, 2, 3]) 0 =
      ⟨[.OSRImportFromUSGS 1 1 10 [1, 2, 3] 0], .ret none⟩ := by
  constructor
  · decide
  · rfl

/-- C4 (amended): `FromUSGS` makes no length check. For a non-empty `params`
slice of any length it makes exactly one C call, the engine's USGS import on
the storage behind `&params[0]`, and returns `nil` when the engine's status is
0 and otherwise the error carrying that status. -/
theorem FromUSGS_nonempty_follows_status (E : Engine) (sr : SpatialReference)
    (projsys zone : Int) (params : Float64Slice) (datum : Int) (h : 0 < params.len) :
    FromUSGS E sr projsys zone params datum =
      ⟨[.OSRImportFromUSGS sr.cval (cLong projsys) (cLong zone) params.array (cLong datum)],
        .ret (if E.OSRImportFromUSGS sr.cval (cLong projsys) (cLong zone) params.array
                  (cLong datum) = 0 then none
              else some (E.OSRImportFromUSGS sr.cval (cLong projsys) (cLong zone)
                  params.array (cLong datum)))⟩ := by
  rw [FromUSGS_run, if_pos h]
  simp [error]

/-- Witness for C4 (amended): a 2-value slice and an engine that
rejects the import with status 5. -/
theorem FromUSGS_nonempty_follows_status_witness :
    0 < (Float64Slice.ofList [500000, 0]).len ∧
    FromUSGS Engine.failing ⟨7⟩ 1 33 (Float64Slice.ofList [500000, 0]) 12 =
      ⟨[.OSRImportFromUSGS (SpatialReference.mk 7).cval (cLong 1) (cLong 33)
          (Float64Slice.ofList [500000, 0]).array (cLong 12)],
        .ret (if Engine.failing.OSRImportFromUSGS (SpatialReference.mk 7).cval (cLong 1)
                  (cLong 33) (Float64Slice.ofList [500000, 0]).array (cLong 12) = 0 then none
              else some (Engine.failing.OSRImportFromUSGS (SpatialReference.mk 7).cval
                  (cLong 1) (cLong 33) (Float64Slice.ofList [500000, 0]).array (cLong 12)))⟩ :=
  ⟨by decide,
    FromUSGS_nonempty_follows_status Engine.failing ⟨7⟩ 1 33
      (Float64Slice.ofList [500000, 0]) 12 (by decide)⟩

/-- C5 (fails on the code): on the `nil` (or empty) `params` slice `FromPCI`
panics with an index out of range, for every engine, handle, `proj` and
`units`; only the two deferred `C.free` calls run, the engine is not called. -/
theorem FromPCI_nil_params_panics (E : Engine) (sr : SpatialReference)
    (proj units : String) :
    FromPCI E sr proj units Float64Slice.nilSlice =
      ⟨[.free (some (CString units)), .free (some (CString proj))],
        .panic (.indexOutOfRange 0 0)⟩ := by
  rfl

/-- C6: `FromWKT` always returns; its error is `nil` if and only if the
engine's WKT import status is 0, and otherwise it is the error carrying
exactly that status. -/
theorem FromWKT_nil_iff_status_zero (E : Engine) (sr : SpatialReference) (wkt : String) :
    (FromWKT E sr wkt).outcome =
      .ret (if E.OSRImportFromWkt sr.cval (CString wkt) = 0 then none
            else some (E.OSRImportFromWkt sr.cval (CString wkt))) ∧
    ((FromWKT E sr wkt).outcome = .ret none ↔
      E.OSRImportFromWkt sr.cval (CString wkt) = 0) := by
  rw [FromWKT_run]
  by_cases h : E.OSRImportFromWkt sr.cval (CString wkt) = 0 <;> simp [h, error]

/-- C7: `ToWKT` always returns. When the export status is 0 it returns
`(text, nil)` where `text` is exactly the string the engine's WKT export left
in its output parameter (the empty string if the engine left it `NULL`); when
the status is non-zero it returns `("", err)` with `err` carrying the status.
It never returns a non-empty text together with a non-nil error. For the
WGS 84 engine the result is that engine's WKT text and a `nil` error. -/
theorem ToWKT_text_or_error (E : Engine) (sr : SpatialReference) :
    (ToWKT E sr).outcome =
      .ret (if (E.OSRExportToWkt sr.cval).1 = 0 then
              (match (E.OSRExportToWkt sr.cval).2 with
                | some c => (c.text, none)
                | none => ("", none))
            else ("", some (E.OSRExportToWkt sr.cval).1)) ∧
    (¬ ∃ text err, (ToWKT E sr).outcome = .ret (text, some err) ∧ text ≠ "") ∧
    (ToWKT Engine.wgs84 ⟨1⟩).outcome = .ret ("GEOGCS[\"WGS 84\"]", none) := by
  refine ⟨?_, ?_, by rfl⟩
  · rw [ToWKT_run]
    by_cases h : (E.OSRExportToWkt sr.cval).1 = 0
    · cases hp : (E.OSRExportToWkt sr.cval).2 <;> simp [h, GoString]
    · simp [h, error]
  · rw [ToWKT_run]
    by_cases h : (E.OSRExportToWkt sr.cval).1 = 0 <;> simp [h, error]

/-- C8 (fails on the code): `ToPrettyWKT` returns `error(err)` unconditionally,
so its error result is never `nil`: it is an error value holding the engine's
status also when that status is 0, as for the WGS 84 engine. -/
theorem ToPrettyWKT_error_never_nil (E : Engine) (BoolToCInt : Bool → Int)
    (sr : SpatialReference) (simplify : Bool) :
    (ToPrettyWKT E BoolToCInt sr simplify).outcome =
      .ret (GoString (E.OSRExportToPrettyWkt sr.cval (BoolToCInt simplify)).2,
            some (E.OSRExportToPrettyWkt sr.cval (BoolToCInt simplify)).1) ∧
    (ToPrettyWKT Engine.wgs84 (fun b => if b then 1 else 0) ⟨1⟩ false).outcome =
      .ret ("GEOGCS[\"WGS 84\"]", some 0) := by
  rw [ToPrettyWKT_run]
  exact ⟨rfl, rfl⟩

/-- C9 (fails on the code): on success `ToMICoordSys` returns the engine's text
together with `error(err)` for the status 0, which is not `nil`; on failure it
returns `("", error(err))`. -/
theorem ToMICoordSys_success_error_not_nil (E : Engine) (sr : SpatialReference) :
    (ToMICoordSys E sr).outcome =
      .ret (if (E.OSRExportToMICoordSys sr.cval).1 = 0
            then (GoString (E.OSRExportToMICoordSys sr.cval).2, some 0)
            else ("", some (E.OSRExportToMICoordSys sr.cval).1)) ∧
    (ToMICoordSys Engine.wgs84 ⟨1⟩).outcome = .ret ("Earth Projection 1, 104", some 0) := by
  rw [ToMICoordSys_run]
  refine ⟨?_, rfl⟩
  by_cases h : (E.OSRExportToMICoordSys sr.cval).1 = 0 <;> simp [h, error]

/-- C10: `AttrValue` always returns, without panic. When the engine's lookup
yields `NULL` it returns `("", false)`; when the lookup yields a text it
returns that text unchanged and `true`. So `ok` is false exactly when the
lookup yields no value. -/
theorem AttrValue_found_flag (E : Engine) (sr : SpatialReference) (key : String)
    (child : Int) :
    (AttrValue E sr key child).outcome =
      .ret (match E.OSRGetAttrValue sr.cval (CString key) (cInt child) with
            | none => ("", false)
            | some v => (v.text, true)) ∧
    ((∃ value, (AttrValue E sr key child).outcome = .ret (value, false)) ↔
      E.OSRGetAttrValue sr.cval (CString key) (cInt child) = none) := by
  rw [AttrValue_run]
  cases h : E.OSRGetAttrValue sr.cval (CString key) (cInt child) <;> simp [GoString]


/-! ## Runs of the functions of the catalog, the transforms and the other importers -/

theorem FromProj4_run (E : Engine) (sr : SpatialReference) (input : String) :
    FromProj4 E sr input =
      ⟨[.OSRImportFromProj4 sr.cval (CString input), .free (some (CString input))],
        .ret (if E.OSRImportFromProj4 sr.cval (CString input) = 0 then none
              else error (E.OSRImportFromProj4 sr.cval (CString input)))⟩ := by
  unfold FromProj4
  by_cases h : E.OSRImportFromProj4 sr.cval (CString input) = 0 <;>
    simp [deferring, C.OSRImportFromProj4, C.free, ccall, bind, Go.bind, pure, h]

theorem FromXML_run (E : Engine) (sr : SpatialReference) (xml : String) :
    FromXML E sr xml =
      ⟨[.OSRImportFromXML sr.cval (CString xml), .free (some (CString xml))],
        .ret (if E.OSRImportFromXML sr.cval (CString xml) = 0 then none
              else error (E.OSRImportFromXML sr.cval (CString xml)))⟩ := by
  unfold FromXML
  by_cases h : E.OSRImportFromXML sr.cval (CString xml) = 0 <;>
    simp [deferring, C.OSRImportFromXML, C.free, ccall, bind, Go.bind, pure, h]

theorem ProjectionParameter_run (E : Engine) (sr : SpatialReference) (name : String)
    (defaultValue : Float64) :
    ProjectionParameter E sr name defaultValue =
      ⟨[.OSRGetProjParm sr.cval (CString name) defaultValue, .free (some (CString name))],
        .ret ((E.OSRGetProjParm sr.cval (CString name) defaultValue).1,
              if (E.OSRGetProjParm sr.cval (CString name) defaultValue).2 = 0 then none
              else error (E.OSRGetProjParm sr.cval (CString name) defaultValue).2)⟩ := by
  unfold ProjectionParameter
  by_cases h : (E.OSRGetProjParm sr.cval (CString name) defaultValue).2 = 0 <;>
    simp [deferring, C.OSRGetProjParm, C.free, ccall, bind, Go.bind, pure, h]

theorem ToXML_run (E : Engine) (A : Allocator) (sr : SpatialReference) :
    ToXML E A sr =
      if (E.OSRExportToXML sr.cval).1 = 0
      then ⟨[.OSRExportToXML sr.cval, .free (E.OSRExportToXML sr.cval).2],
            .ret (GoString ((E.OSRExportToXML sr.cval).2.map A.afterFree), none)⟩
      else ⟨[.OSRExportToXML sr.cval], .ret ("", error (E.OSRExportToXML sr.cval).1)⟩ := by
  unfold ToXML
  by_cases h : (E.OSRExportToXML sr.cval).1 = 0 <;>
    simp [C.OSRExportToXML, C.free, ccall, bind, Go.bind, pure, h]

theorem CreateCoordinateTransform_run (E : Engine) (source dest : SpatialReference) :
    CreateCoordinateTransform E source dest =
      ⟨[.OCTNewCoordinateTransformation source.cval dest.cval],
        .ret ⟨E.OCTNewCoordinateTransformation source.cval dest.cval⟩⟩ := by
  simp [CreateCoordinateTransform, C.OCTNewCoordinateTransformation, ccall, bind, Go.bind,
    pure]

theorem ParameterInfo_run (E : Engine) (projectionMethod parameterName : String) :
    ParameterInfo E projectionMethod parameterName =
      ⟨[.OPTGetParameterInfo (CString projectionMethod) (CString parameterName),
        .free (some (CString parameterName)), .free (some (CString projectionMethod))],
        .ret (GoString
                (E.OPTGetParameterInfo (CString projectionMethod) (CString parameterName)).2.1,
              GoString
                (E.OPTGetParameterInfo (CString projectionMethod) (CString parameterName)).2.2.1,
              (E.OPTGetParameterInfo (CString projectionMethod) (CString parameterName)).2.2.2,
              (E.OPTGetParameterInfo (CString projectionMethod) (CString parameterName)).1
                != 0)⟩ := by
  simp [ParameterInfo, deferring, C.OPTGetParameterInfo, C.free, ccall, bind, Go.bind, pure]

/-- On cells that hold a `NULL`, the loop makes no C call and returns what it
had collected followed by the strings before the first `NULL`. -/
theorem nameLoop_null_terminated (cells : List (Option CStr)) (strings : List String)
    (h : none ∈ cells) :
    nameLoop cells strings =
      ⟨[], .ret (strings ++ (cells.takeWhile Option.isSome).map GoString)⟩ := by
  induction cells generalizing strings with
  | nil => simp at h
  | cons c rest ih =>
    cases c with
    | none => simp [nameLoop, pure]
    | some c =>
      have hr : none ∈ rest := by simpa using h
      simp [nameLoop, ih _ hr]

/-- The number of cells before the first `NULL` is the index of that `NULL`. -/
theorem takeWhile_isSome_length (cells : List (Option CStr)) :
    (cells.takeWhile Option.isSome).length = cells.findIdx Option.isNone := by
  induction cells with
  | nil => rfl
  | cons c rest ih =>
    cases c with
    | none => simp [List.findIdx_cons]
    | some c => simp [List.findIdx_cons, ih]

/-- The cells before the first `NULL` of an array of names followed by `NULL`
are the names. -/
theorem takeWhile_isSome_names (names : List CStr) (rest : List (Option CStr)) :
    (names.map some ++ none :: rest).takeWhile Option.isSome = names.map some := by
  induction names with
  | nil => simp
  | cons c names ih => simp [List.takeWhile_cons, ih]

/-! ## The claims on the catalog, the transforms and the other importers -/

/-- C11: `ParameterInfo` always returns; `ok` is true if and only if the
engine's catalog lookup reports success (non-zero); and when the lookup reports
failure and leaves its three outputs untouched, `ParameterInfo` returns
`("", "", 0, false)`. -/
theorem ParameterInfo_found_flag (E : Engine) (projectionMethod parameterName : String) :
    (ParameterInfo E projectionMethod parameterName).outcome =
      .ret (GoString
              (E.OPTGetParameterInfo (CString projectionMethod) (CString parameterName)).2.1,
            GoString
              (E.OPTGetParameterInfo (CString projectionMethod) (CString parameterName)).2.2.1,
            (E.OPTGetParameterInfo (CString projectionMethod) (CString parameterName)).2.2.2,
            decide ((E.OPTGetParameterInfo (CString projectionMethod)
              (CString parameterName)).1 ≠ 0)) ∧
    (E.OPTGetParameterInfo (CString projectionMethod) (CString parameterName)
        = (0, none, none, 0) →
      (ParameterInfo E projectionMethod parameterName).outcome =
        .ret ("", "", 0, false)) := by
  rw [ParameterInfo_run]
  refine ⟨?_, ?_⟩
  · by_cases h : (E.OPTGetParameterInfo (CString projectionMethod)
        (CString parameterName)).1 = 0 <;> simp [h]
  · intro h
    simp [h, GoString]

/-- Witness for C11: a parameter name that the catalog does not know. -/
theorem ParameterInfo_found_flag_witness :
    Engine.catalog.OPTGetParameterInfo (CString "Transverse_Mercator")
        (CString "azimuth") = (0, none, none, 0) ∧
    (ParameterInfo Engine.catalog "Transverse_Mercator" "azimuth").outcome =
      .ret ("", "", 0, false) :=
  ⟨by rfl,
    (ParameterInfo_found_flag Engine.catalog "Transverse_Mercator" "azimuth").2 (by rfl)⟩

/-- C12: `FromESRI` is the PROJ.4 importer verbatim: it has the same run as
`FromProj4`, which is the single engine call `OSRImportFromProj4` on the input
(followed by the deferred `C.free`), and the same error result. -/
theorem FromESRI_is_FromProj4 (E : Engine) (sr : SpatialReference) (input : String) :
    FromESRI E sr input = FromProj4 E sr input ∧
    (FromESRI E sr input).trace =
      [.OSRImportFromProj4 sr.cval (CString input), .free (some (CString input))] := by
  have hsame : FromESRI E sr input = FromProj4 E sr input := rfl
  rw [hsame, FromProj4_run]
  exact ⟨rfl, rfl⟩

/-- C13 (fails on the code): `FromURL` hands the URL to `OSRImportFromXML`, the
parser of XML text, and never calls the URL importer. With an engine whose URL
importer succeeds on the URL, `FromURL` still returns the error 5 that the XML
parser reports for the URL text. -/
theorem FromURL_parses_url_as_XML (E : Engine) (sr : SpatialReference) (url : String) :
    FromURL E sr url =
      ⟨[.OSRImportFromXML sr.cval (CString url), .free (some (CString url))],
        .ret (if E.OSRImportFromXML sr.cval (CString url) = 0 then none
              else some (E.OSRImportFromXML sr.cval (CString url)))⟩ ∧
    Engine.online.OSRImportFromUrl 1
      (CString "http://spatialreference.org/ref/epsg/4326/gml/") = 0 ∧
    (FromURL Engine.online ⟨1⟩ "http://spatialreference.org/ref/epsg/4326/gml/").outcome =
      .ret (some 5) := by
  refine ⟨?_, by rfl, by rfl⟩
  have hsame : FromURL E sr url = FromXML E sr url := rfl
  rw [hsame, FromXML_run]
  rfl

/-- C14 as stated is false: when the engine yields no handle,
`CreateCoordinateTransform` returns normally; its only result is a
`CoordinateTransform`, here one that wraps the `NULL` handle, and no error
value. -/
theorem CreateCoordinateTransform_null_handle_returned :
    Engine.failing.OCTNewCoordinateTransformation 1 2 = 0 ∧
    CreateCoordinateTransform Engine.failing ⟨1⟩ ⟨2⟩ =
      ⟨[.OCTNewCoordinateTransformation 1 2], .ret ⟨0⟩⟩ := by
  exact ⟨rfl, rfl⟩

/-- C14 (amended): `CreateCoordinateTransform` has no error result. It makes
one engine call and returns the `CoordinateTransform` that wraps the handle the
engine yields; the returned handle is `NULL` exactly when the engine yields no
handle. -/
theorem CreateCoordinateTransform_wraps_handle (E : Engine)
    (source dest : SpatialReference) :
    CreateCoordinateTransform E source dest =
      ⟨[.OCTNewCoordinateTransformation source.cval dest.cval],
        .ret ⟨E.OCTNewCoordinateTransformation source.cval dest.cval⟩⟩ ∧
    ((CreateCoordinateTransform E source dest).outcome = .ret ⟨0⟩ ↔
      E.OCTNewCoordinateTransformation source.cval dest.cval = 0) := by
  rw [CreateCoordinateTransform_run]
  refine ⟨rfl, ?_⟩
  constructor
  · intro h
    injection h with h
    injection h
  · intro h
    rw [h]

/-- C15: for the transform built from `(source, dest)`, `Destroy` makes exactly
one C call, `OCTDestroyCoordinateTransformation` on the transform's own handle;
in particular it makes no destroy, release or dereference call on the handle of
`source` or of `dest`. -/
theorem CoordinateTransform_Destroy_only_transform (E : Engine)
    (source dest : SpatialReference) :
    ∃ ct, (CreateCoordinateTransform E source dest).outcome = .ret ct ∧
      ct.Destroy = ⟨[.OCTDestroyCoordinateTransformation ct.cval], .ret ()⟩ ∧
      ∀ h, Call.OSRDestroySpatialReference h ∉ ct.Destroy.trace ∧
        Call.OSRRelease h ∉ ct.Destroy.trace ∧
        Call.OSRDereference h ∉ ct.Destroy.trace := by
  refine ⟨⟨E.OCTNewCoordinateTransformation source.cval dest.cval⟩, ?_, rfl, ?_⟩
  · rw [CreateCoordinateTransform_run]
  · intro h
    simp [CoordinateTransform.Destroy, C.OCTDestroyCoordinateTransformation, ccall]

/-- C16: on a null-terminated array of names, `ProjectionMethods` makes its one
engine call, terminates, and returns the entries before the first `NULL`, in
order; the length of the result is the index of the first `NULL`. Spelled out:
when the array is the names `names` followed by `NULL`, the result is exactly
the texts of `names`, one per name and in the same order. -/
theorem ProjectionMethods_names_before_null (E : Engine) (cells : List (Option CStr))
    (harr : E.OPTGetProjectionMethods = some cells) (hnull : none ∈ cells) :
    ProjectionMethods E =
      ⟨[.OPTGetProjectionMethods],
        .ret ((cells.takeWhile Option.isSome).map GoString)⟩ ∧
    ((cells.takeWhile Option.isSome).map GoString).length =
      cells.findIdx Option.isNone ∧
    (∀ (names : List CStr) (rest : List (Option CStr)),
      cells = names.map some ++ none :: rest →
        (ProjectionMethods E).outcome = .ret (names.map CStr.text)) := by
  have hrun : ProjectionMethods E =
      ⟨[.OPTGetProjectionMethods],
        .ret ((cells.takeWhile Option.isSome).map GoString)⟩ := by
    simp [ProjectionMethods, C.OPTGetProjectionMethods, ccall, bind, Go.bind, pure, harr,
      nameLoopFrom, nameLoop_null_terminated cells [] hnull]
  refine ⟨hrun, ?_, ?_⟩
  · rw [List.length_map, takeWhile_isSome_length]
  · intro names rest hcells
    rw [hrun, hcells, takeWhile_isSome_names]
    simp [GoString, Function.comp_def]

/-- Witness for C16: the catalog with two methods. -/
theorem ProjectionMethods_names_before_null_witness :
    (Engine.catalog.OPTGetProjectionMethods =
        some [some ⟨"Transverse_Mercator"⟩, some ⟨"Albers_Conic_Equal_Area"⟩, none] ∧
      none ∈ [some (CStr.mk "Transverse_Mercator"), some ⟨"Albers_Conic_Equal_Area"⟩,
        none]) ∧
    (ProjectionMethods Engine.catalog =
      ⟨[.OPTGetProjectionMethods],
        .ret (([some (CStr.mk "Transverse_Mercator"), some ⟨"Albers_Conic_Equal_Area"⟩,
          none].takeWhile Option.isSome).map GoString)⟩ ∧
    (([some (CStr.mk "Transverse_Mercator"), some ⟨"Albers_Conic_Equal_Area"⟩,
        none].takeWhile Option.isSome).map GoString).length =
      [some (CStr.mk "Transverse_Mercator"), some ⟨"Albers_Conic_Equal_Area"⟩,
        none].findIdx Option.isNone ∧
    (∀ (names : List CStr) (rest : List (Option CStr)),
      [some (CStr.mk "Transverse_Mercator"), some ⟨"Albers_Conic_Equal_Area"⟩, none] =
          names.map some ++ none :: rest →
        (ProjectionMethods Engine.catalog).outcome = .ret (names.map CStr.text))) :=
  ⟨⟨rfl, by simp⟩,
    ProjectionMethods_names_before_null Engine.catalog
      [some ⟨"Transverse_Mercator"⟩, some ⟨"Albers_Conic_Equal_Area"⟩, none] rfl (by simp)⟩

/-- C18 (fails on the code): when the engine's lookup yields a `NULL` list, as
the empty catalog does for every method name, `ParameterList` makes the lookup
and then panics on the first read `*p` of the loop, a `nil` dereference; only
the deferred `C.free` runs after it. -/
theorem ParameterList_null_list_panics (method : String) :
    Engine.quiet.OPTGetParameterList (CString method) = (none, none) ∧
    ParameterList Engine.quiet method =
      ⟨[.OPTGetParameterList (CString method), .free (some (CString method))],
        .panic .nilDereference⟩ := by
  exact ⟨rfl, rfl⟩

/-- C19 (fails on the code): on status 0 `ToXML` returns the string read from
the output buffer after `C.free` has released it, that is what the allocator
left there, not the text the engine produced. With an allocator that overwrites
the start of released storage, `ToXML` returns the empty string for the WGS 84
engine, whose XML text is not empty. -/
theorem ToXML_reads_released_buffer (E : Engine) (A : Allocator) (sr : SpatialReference) :
    (ToXML E A sr).outcome =
      .ret (if (E.OSRExportToXML sr.cval).1 = 0
            then (GoString ((E.OSRExportToXML sr.cval).2.map A.afterFree), none)
            else ("", some (E.OSRExportToXML sr.cval).1)) ∧
    ToXML Engine.wgs84 Allocator.clearing ⟨1⟩ =
      ⟨[.OSRExportToXML 1, .free (some ⟨"<gml:GeographicCRS gml:id=\"ogrcrs1\"/>"⟩)],
        .ret ("", none)⟩ ∧
    GoString (Engine.wgs84.OSRExportToXML 1).2 =
      "<gml:GeographicCRS gml:id=\"ogrcrs1\"/>" := by
  refine ⟨?_, by rfl, by rfl⟩
  rw [ToXML_run]
  by_cases h : (E.OSRExportToXML sr.cval).1 = 0 <;> simp [h, error]

/-- C20: `NormalizedProjectionParameter` and `ProjectionParameter` are the same
function: they have the same run, the single engine call `OSRGetProjParm` on
the name and the default (followed by the deferred `C.free`), and return the
same `(value, error)` pair. -/
theorem NormalizedProjectionParameter_is_ProjectionParameter (E : Engine)
    (sr : SpatialReference) (name : String) (defaultValue : Float64) :
    NormalizedProjectionParameter E sr name defaultValue =
      ProjectionParameter E sr name defaultValue ∧
    (NormalizedProjectionParameter E sr name defaultValue).trace =
      [.OSRGetProjParm sr.cval (CString name) defaultValue, .free (some (CString name))] := by
  have hsame : NormalizedProjectionParameter E sr name defaultValue =
      ProjectionParameter E sr name defaultValue := rfl
  rw [hsame, ProjectionParameter_run]
  exact ⟨rfl, rfl⟩

end Gdal
